import Mathlib

/-!
Verification development for the detection-and-recording controller of the
Mac-security-cam repository (`imac-security(backup_nossh).py`).

Shallow embedding conventions:
* A video frame reaching the motion detector is represented by its blurred
  grayscale intensity image, a `List ℚ` of pixel values (the upstream
  `cv2.cvtColor` + `cv2.GaussianBlur` steps are external image operations;
  the detector logic consumes their output).
* An audio chunk is a `List Nat` of raw bytes (values 0..255).
* Wall-clock time (`time.time()`) is a rational number of seconds; one tick
  observes a single instant `now`.
* External library effects that the Python code merely consumes are passed to
  the model as explicit inputs: whether `cv2.VideoWriter` opened successfully
  (`writerOk`), the boolean the MOG2 background subtractor would report
  (`bgResult`), and the PCM bytes a stream read would return.
-/

/-- A grayscale (already blurred) intensity image: one rational per pixel. -/
abbrev Gray := List ℚ

/-- FastDifference trigger threshold from `CameraManager.detect_motion`:
`threshold = (30 - self.motion_sensitivity) / 5`. -/
def fdThreshold (sensitivity : ℚ) : ℚ := (30 - sensitivity) / 5

/-- Percentage of pixels in `thresh` equal to 255, as in
`movement_percentage = (white_pixel_count / total_pixels) * 100`. -/
def movementPercentage (thresh : List ℚ) : ℚ :=
  ((thresh.filter (fun x => x = 255)).length : ℚ) / (thresh.length : ℚ) * 100

/-- The simple (FastDifference) branch of `CameraManager.detect_motion`,
operating on the blurred grayscale image `gray`.  Returns the motion verdict
together with the updated `prev_frame` reference.

Python:
```
if self.prev_frame is None:
    self.prev_frame = gray; return False
frame_delta = cv2.absdiff(self.prev_frame, gray)
thresh = cv2.threshold(frame_delta, 25, 255, cv2.THRESH_BINARY)[1]
self.prev_frame = cv2.addWeighted(self.prev_frame, 0.7, gray, 0.3, 0)
white_pixel_count = np.sum(thresh == 255)
movement_percentage = (white_pixel_count / total_pixels) * 100
threshold = (30 - self.motion_sensitivity) / 5
return movement_percentage > threshold
```
(`THRESH_BINARY` maps a pixel to 255 when it is strictly above the cut-off,
else to 0; `addWeighted` forms `0.7*old + 0.3*new`, modelled exactly over ℚ.) -/
def detectMotionSimple (sensitivity : ℚ) (prev : Option Gray) (gray : Gray) :
    Bool × Option Gray :=
  match prev with
  | none => (false, some gray)
  | some p =>
      let frameDelta := List.zipWith (fun a b => |a - b|) p gray
      let thresh := frameDelta.map (fun d => if 25 < d then (255 : ℚ) else 0)
      let newPrev := List.zipWith (fun a b => 0.7 * a + 0.3 * b) p gray
      (decide (movementPercentage thresh > fdThreshold sensitivity), some newPrev)

/-- Decode one little-endian signed 16-bit sample from two bytes, as
`int.from_bytes(data[i:i+2], byteorder='little', signed=True)`. -/
def int16OfBytes (lo hi : Nat) : Int :=
  let u := lo + 256 * hi
  if u < 32768 then (u : Int) else (u : Int) - 65536

/-- Decode a byte string into its consecutive little-endian int16 samples
(the loop `for i in range(0, len(data), 2)`; a trailing lone byte cannot
occur for the even-length chunks considered). -/
def decodeSamples : List Nat → List Int
  | lo :: hi :: rest => int16OfBytes lo hi :: decodeSamples rest
  | _ => []

/-- Mean absolute sample magnitude of a byte chunk, as in
`energy = sum(abs(sample_i)) / (len(data)/2)`. -/
def chunkEnergy (data : List Nat) : ℚ :=
  (((decodeSamples data).map Int.natAbs).sum : ℚ) / ((data.length : ℚ) / 2)

/-- `AudioManager.detect_voice`: returns `False` when voice detection is
disabled or the stream is absent; otherwise reads a chunk and reports voice
exactly when its energy is strictly above 1500.

Python:
```
if not self.voice_detection_enabled or self.stream is None: return False
data = self.stream.read(4096, exception_on_overflow=False)
energy = sum(abs(int.from_bytes(data[i:i+2], byteorder='little', signed=True))
             for i in range(0, len(data), 2)) / (len(data)/2)
if energy > 1500: return True
return False
``` -/
def detectVoice (voiceEnabled streamOpen : Bool) (data : List Nat) : Bool :=
  if !voiceEnabled || !streamOpen then false
  else decide (chunkEnergy data > 1500)

/-- The `cv2.VideoWriter` held by `CameraManager` while recording: whether the
writer actually opened its output file, and the frames written so far. -/
structure VideoWriter where
  opened : Bool
  frames : List Gray
  deriving Repr, DecidableEq

/-- Combined state of `SecurityApp`, `CameraManager` and `AudioManager`, as
far as the detection-and-recording controller reads or writes it.

Configuration fields (`useSimple`, `sensitivity`, `linger`, `voiceEnabled`)
mirror `use_simple_motion_detection`, `motion_sensitivity`,
`post_detection_record_time` and `voice_detection_enabled`.  `bgApplied`
records the frames fed into the MOG2 background subtractor since its
creation (its adaptive background estimate is a function of these; the
per-frame foreground verdict itself is an external library output).
`videoFiles` counts finalized video containers; `wavFiles` lists finalized
wave files, each as the chunk list written into it. -/
structure AppState where
  monitoring : Bool
  cameraOpen : Bool
  streamOpen : Bool
  useSimple : Bool
  sensitivity : ℚ
  linger : ℚ
  voiceEnabled : Bool
  camRecording : Bool
  audRecording : Bool
  camMotionFlag : Bool
  audVoiceFlag : Bool
  lastMotionTime : ℚ
  lastVoiceTime : ℚ
  lastVoiceCheck : ℚ
  prevFrame : Option Gray
  bgApplied : List Gray
  videoWriter : Option VideoWriter
  audioFrames : List (List Nat)
  videoFiles : Nat
  wavFiles : List (List (List Nat))
  deriving Repr, DecidableEq

/-- `CameraManager.detect_motion` as invoked from the tick: dispatches on
`use_simple_motion_detection`.  In background-subtraction mode the MOG2
foreground mask is an external library output (`bgResult` is the verdict the
thresholded mask yields); the frame is incorporated into the subtractor's
adaptive model (`background_subtractor.apply(gray)`). -/
def detectMotion (s : AppState) (bgResult : Bool) (gray : Gray) :
    Bool × Option Gray × List Gray :=
  if s.useSimple then
    let r := detectMotionSimple s.sensitivity s.prevFrame gray
    (r.1, r.2, s.bgApplied)
  else
    (bgResult, s.prevFrame, s.bgApplied ++ [gray])

/-- `CameraManager.start_recording`: creates the `cv2.VideoWriter`
(`writerOk` says whether it opened its file — the code never checks) and sets
`is_recording = True` unconditionally. -/
def camStartRecording (s : AppState) (writerOk : Bool) : AppState :=
  { s with videoWriter := some ⟨writerOk, []⟩, camRecording := true }

/-- `CameraManager.stop_recording`: when recording, releases the writer
(finalizing one video file) and clears the flag; otherwise a no-op. -/
def camStopRecording (s : AppState) : AppState :=
  if s.camRecording then
    { s with videoWriter := none, camRecording := false,
             videoFiles := s.videoFiles + 1 }
  else s

/-- `CameraManager.record_frame`: writes the frame when recording (the frame
is present on every path that reaches this call).  `cv2.VideoWriter.write`
silently drops the frame when the writer failed to open. -/
def camRecordFrame (s : AppState) (frame : Gray) : AppState :=
  { s with videoWriter :=
      if s.camRecording then
        match s.videoWriter with
        | some w =>
            some { opened := w.opened
                   frames := if w.opened then w.frames ++ [frame] else w.frames }
        | none => s.videoWriter
      else s.videoWriter }

/-- `AudioManager.start_recording`: resets the frame buffer and sets
`is_recording = True`; no file is opened here (the wave file is only written
at stop time). -/
def audStartRecording (s : AppState) : AppState :=
  { s with audioFrames := [], audRecording := true }

/-- `AudioManager.stop_recording`: when recording, writes the buffered chunks
into a wave file, clears the buffer and the flag; otherwise a no-op. -/
def audStopRecording (s : AppState) : AppState :=
  if s.audRecording then
    { s with wavFiles := s.wavFiles ++ [s.audioFrames],
             audioFrames := [], audRecording := false }
  else s

/-- `AudioManager.record_audio`: when recording and the stream exists,
appends one freshly read chunk to the buffer. -/
def audRecordAudio (s : AppState) (recData : List Nat) : AppState :=
  { s with audioFrames :=
      if s.audRecording && s.streamOpen then s.audioFrames ++ [recData]
      else s.audioFrames }

/-- `CameraManager.set_camera`: if the video recording is active, stop it
(only the video side — `AudioManager` is not consulted); release the camera
and reopen at the new index.  `cv2.VideoCapture` always yields an object, so
the camera handle exists afterwards (`cameraOpen` models `camera is not
None`); a device that failed to open simply yields no frames. -/
def setCamera (s : AppState) : AppState :=
  let s1 := if s.camRecording then camStopRecording s else s
  { s1 with cameraOpen := true }

/-- `AudioManager.set_microphone`: if the audio recording is active, stop it
(only the audio side — `CameraManager` is not consulted); close the stream
and restart it on the new device (`openOk`: whether `audio.open` succeeded;
`streamOpen` models "a readable stream exists" — a read on a dead stream is
caught by `detect_voice` and yields `False`, the same as the `stream is
None` guard). -/
def setMicrophone (s : AppState) (openOk : Bool) : AppState :=
  let s1 := if s.audRecording then audStopRecording s else s
  { s1 with streamOpen := openOk }

/-- `SecurityApp.update_motion_method`: switches between the simple
(FastDifference) and background-subtraction modes.  Only `prev_frame` is
reset; the MOG2 background subtractor created in `__init__` is left as it
is. -/
def updateMotionMethod (s : AppState) (useSimple : Bool) : AppState :=
  { s with useSimple := useSimple, prevFrame := none }

/-- `SecurityApp.toggle_monitoring`: flips the monitoring flag; on stopping,
finalizes any active recording (both sides). -/
def toggleMonitoring (s : AppState) : AppState :=
  let s1 := { s with monitoring := !s.monitoring }
  if s1.monitoring then s1
  else if s1.camRecording then audStopRecording (camStopRecording s1) else s1

/-- The motion verdict produced at a tick (the value of `motion_detected` in
`update_preview`). -/
def tickMotion (s : AppState) (bgResult : Bool) (frame : Gray) : Bool :=
  (detectMotion s bgResult frame).1

/-- The voice verdict produced at a tick (the value of `voice_detected` in
`update_preview`): voice detection runs only when more than 0.3 s have
passed since the last check, else the verdict stays `False`. -/
def tickVoice (s : AppState) (now : ℚ) (audioData : List Nat) : Bool :=
  if now - s.lastVoiceCheck > 0.3 then
    detectVoice s.voiceEnabled s.streamOpen audioData
  else false

/-- One pass of `SecurityApp.update_preview` (the tick loop body), preview
rendering omitted (it touches no controller state).

Inputs: the instant `now`, the acquired frame (`none` = `camera.read`
failed), the chunk `detect_voice` would read, the chunk `record_audio` would
read, the MOG2 verdict, and whether a freshly created `cv2.VideoWriter`
would open.  Structure, in source order: camera-`None` guard; read-failure
guard; monitoring guard; motion detection; throttled voice detection;
indicator/timestamp updates; session start; session continue-or-stop. -/
def tick (s : AppState) (now : ℚ) (frameOpt : Option Gray)
    (audioData recData : List Nat) (bgResult writerOk : Bool) : AppState :=
  if !s.cameraOpen then s
  else match frameOpt with
  | none => s
  | some frame =>
    if !s.monitoring then s
    else
      let motionDetected := tickMotion s bgResult frame
      let voiceDetected := tickVoice s now audioData
      let md := detectMotion s bgResult frame
      let s1 : AppState :=
        { s with
          prevFrame := md.2.1
          bgApplied := md.2.2
          lastVoiceCheck :=
            if now - s.lastVoiceCheck > 0.3 then now else s.lastVoiceCheck
          lastMotionTime := if motionDetected then now else s.lastMotionTime
          camMotionFlag := if motionDetected then true else s.camMotionFlag
          lastVoiceTime := if voiceDetected then now else s.lastVoiceTime
          audVoiceFlag := if voiceDetected then true else s.audVoiceFlag }
      let s2 :=
        if (motionDetected || voiceDetected) && !s1.camRecording then
          audStartRecording (camStartRecording s1 writerOk)
        else s1
      if s2.camRecording then
        if s2.camMotionFlag || s2.audVoiceFlag ||
            decide (now - max s2.lastMotionTime s2.lastVoiceTime < s2.linger) then
          let s3 := audRecordAudio (camRecordFrame s2 frame) recData
          { s3 with camMotionFlag := false, audVoiceFlag := false }
        else
          audStopRecording (camStopRecording s2)
      else s2

/-- The state after `SecurityApp.__init__` (camera opened, stream started,
monitoring off, timestamps zeroed, no recording, fresh detector state), for
a given configuration snapshot. -/
def initState (useSimple : Bool) (sensitivity linger : ℚ)
    (voiceEnabled streamOk : Bool) : AppState :=
  { monitoring := false, cameraOpen := true, streamOpen := streamOk
    useSimple := useSimple, sensitivity := sensitivity, linger := linger
    voiceEnabled := voiceEnabled
    camRecording := false, audRecording := false
    camMotionFlag := false, audVoiceFlag := false
    lastMotionTime := 0, lastVoiceTime := 0, lastVoiceCheck := 0
    prevFrame := none, bgApplied := []
    videoWriter := none, audioFrames := []
    videoFiles := 0, wavFiles := [] }

/-- States the tick loop can reach: the freshly initialized application,
closed under ticks and under toggling monitoring on or off. -/
inductive Reachable : AppState → Prop
  | init (useSimple : Bool) (sensitivity linger : ℚ)
      (voiceEnabled streamOk : Bool) :
      Reachable (initState useSimple sensitivity linger voiceEnabled streamOk)
  | tick (s : AppState) (now : ℚ) (frameOpt : Option Gray)
      (audioData recData : List Nat) (bgResult writerOk : Bool) :
      Reachable s → Reachable (tick s now frameOpt audioData recData bgResult writerOk)
  | toggle (s : AppState) : Reachable s → Reachable (toggleMonitoring s)

/-- The tick-loop invariant: an open video writer exists exactly while the
camera side records, the audio side records exactly while the camera side
does, and the sticky per-tick detection flags are clear between ticks. -/
def TickInv (s : AppState) : Prop :=
  s.videoWriter.isSome = s.camRecording ∧
  s.audRecording = s.camRecording ∧
  s.camMotionFlag = false ∧
  s.audVoiceFlag = false

/-- A state reached by monitoring being switched on and two ticks: the first
frame seeds the FastDifference reference, the second triggers motion and
starts a recording session. -/
def recState : AppState :=
  tick (tick (toggleMonitoring (initState true 20 10 false true))
          1 (some [0]) [] [] false true)
    2 (some [100]) [] [] false true

/-- Mid-recording state for the linger scenario of C2: a single activity
event at `t = 0` (both timestamps zero), session open, no further
activity possible (voice detection off, identical frames ahead). -/
def lingerScenarioState : AppState :=
  { initState true 20 10 false true with
      monitoring := true
      camRecording := true
      audRecording := true
      videoWriter := some ⟨true, []⟩
      prevFrame := some [0] }

/-- Mid-recording state used to exercise the device-switch operations. -/
def deviceSwitchState : AppState :=
  { initState true 20 10 true true with
      monitoring := true
      camRecording := true
      audRecording := true
      videoWriter := some ⟨true, []⟩
      audioFrames := [[0, 0]] }

/-- Monitoring, idle, with a seeded reference frame: the next ticked frame
decides whether a session starts. -/
def sinkFailState : AppState :=
  { initState true 20 10 false true with
      monitoring := true
      prevFrame := some [0] }

/-- Background-subtraction mode with an adapted background model (one frame
already incorporated). -/
def modeSwitchState : AppState :=
  { initState false 20 10 false true with bgApplied := [[0]] }

/-- 200-pixel all-zero reference frame for the FastDifference percentage
tests. -/
def demoPrev : Gray := List.replicate 200 0

/-- Frame differing from `demoPrev` in 5 of 200 pixels (2.5 %). -/
def demoFrame25 : Gray := List.replicate 5 100 ++ List.replicate 195 0

/-- Frame differing from `demoPrev` in 3 of 200 pixels (1.5 %). -/
def demoFrame15 : Gray := List.replicate 3 100 ++ List.replicate 197 0

/-- One little-endian int16 sample of value 1600 (mean magnitude 1600). -/
def chunk1600 : List Nat := [64, 6]

/-- One little-endian int16 sample of value 1400 (mean magnitude 1400). -/
def chunk1400 : List Nat := [120, 5]

/-- One little-endian int16 sample of value 1500 (mean magnitude 1500). -/
def chunk1500 : List Nat := [220, 5]

/-! ## Helper lemmas -/

theorem decodeSamples_length :
    ∀ data : List Nat, (decodeSamples data).length = data.length / 2
  | [] => by simp [decodeSamples]
  | [_] => by simp [decodeSamples]
  | _ :: _ :: rest => by
      simp only [decodeSamples, List.length_cons, decodeSamples_length rest]
      omega

theorem length_filter_threshOfDelta (l : List ℚ) :
    ((l.map (fun d => if 25 < d then (255 : ℚ) else 0)).filter
        (fun x => x = 255)).length
      = (l.filter (fun d => 25 < d)).length := by
  induction l with
  | nil => rfl
  | cons a t ih =>
      by_cases h : (25 : ℚ) < a <;> simp [List.filter, h, ih]

/-! ## Claims -/

/-- C7: a tick on which the frame source yields no frame leaves the entire
controller state unchanged — recording flag, session and sinks, timestamps
and detector state — and merely defers to the next tick; an in-progress
session is never terminated by a frame-read failure. -/
theorem frame_failure_is_noop (s : AppState) (now : ℚ)
    (audioData recData : List Nat) (bgResult writerOk : Bool) :
    tick s now none audioData recData bgResult writerOk = s := by
  unfold tick
  by_cases h : s.cameraOpen <;> simp [h]

/-- C9 (amended): the FastDifference trigger threshold `(30 − s)/5` is
strictly decreasing as the sensitivity spans 1…25, and its values span
1.0 % (at sensitivity 25) up to 5.8 % (at sensitivity 1). -/
theorem fdThreshold_strictAnti_range :
    (∀ a b : ℚ, 1 ≤ a → a < b → b ≤ 25 → fdThreshold b < fdThreshold a) ∧
    fdThreshold 25 = 1 ∧ fdThreshold 1 = 29 / 5 := by
  refine ⟨fun a b _ hab _ => ?_, by norm_num [fdThreshold], by norm_num [fdThreshold]⟩
  unfold fdThreshold
  linarith

theorem fdThreshold_strictAnti_range_witness :
    fdThreshold 25 < fdThreshold 1 :=
  fdThreshold_strictAnti_range.1 1 25 (by norm_num) (by norm_num) (by norm_num)

/-- C9 counterexample: at sensitivity 25 the FastDifference threshold is
1 %, not approximately 0.2 % (it is not even below 0.3 %). -/
theorem fdThreshold_at_max_sensitivity_cex :
    fdThreshold 25 = 1 ∧ ¬(fdThreshold 25 ≤ 3 / 10) := by
  norm_num [fdThreshold]

/-- C10 counterexample: switching the detection mode on a detector whose
background subtractor has already adapted to a frame leaves that adaptive
state in place — it is not reset to its initial (empty) condition. -/
theorem mode_switch_cex :
    (updateMotionMethod modeSwitchState true).bgApplied = [[0]] ∧
    (updateMotionMethod modeSwitchState true).bgApplied ≠ [] := by decide

/-- C10 (amended): the mode-switch operation clears only the FastDifference
reference frame; the BackgroundModel subtractor's adaptive state is left
unchanged, from every starting state of the detector. -/
theorem mode_switch_resets_reference_only (s : AppState) (useSimple : Bool) :
    (updateMotionMethod s useSimple).prevFrame = none ∧
    (updateMotionMethod s useSimple).bgApplied = s.bgApplied := by
  simp [updateMotionMethod]

/-- C6 counterexample: switching the camera while a session is open stops
only the video side — the audio recording stays active, its accumulated
buffer is not finalized, and no wave file is written before the new device
is opened. -/
theorem device_switch_cex :
    (setCamera deviceSwitchState).audRecording = true ∧
    (setCamera deviceSwitchState).audioFrames = [[0, 0]] ∧
    (setCamera deviceSwitchState).wavFiles = [] := by decide

/-- C6 (amended): each device-switch operation finalizes only its own side
of an open session before reopening: `set_camera` stops and releases the
video writer but leaves the audio recording and its buffer untouched, while
`set_microphone` finalizes the audio buffer into a wave file but leaves the
video recording and its writer untouched. -/
theorem device_switch_finalizes_own_side (s : AppState) (openOk : Bool)
    (hc : s.camRecording = true) (ha : s.audRecording = true) :
    ((setCamera s).camRecording = false ∧
     (setCamera s).videoWriter = none ∧
     (setCamera s).videoFiles = s.videoFiles + 1 ∧
     (setCamera s).audRecording = true ∧
     (setCamera s).audioFrames = s.audioFrames ∧
     (setCamera s).wavFiles = s.wavFiles) ∧
    ((setMicrophone s openOk).audRecording = false ∧
     (setMicrophone s openOk).audioFrames = [] ∧
     (setMicrophone s openOk).wavFiles = s.wavFiles ++ [s.audioFrames] ∧
     (setMicrophone s openOk).camRecording = true ∧
     (setMicrophone s openOk).videoWriter = s.videoWriter) := by
  simp [setCamera, setMicrophone, camStopRecording, audStopRecording, hc, ha]

theorem device_switch_finalizes_own_side_witness :
    (setCamera deviceSwitchState).audRecording = true :=
  ((device_switch_finalizes_own_side deviceSwitchState true (by decide)
      (by decide)).1).2.2.2.1

/-- C8 counterexample: a motion-triggering tick on which the video writer
fails to open still ends in the Recording state, holding the unopened
writer — session creation is not aborted and the controller does not end
the tick in Idle. -/
theorem sink_failure_cex :
    (tick sinkFailState 1 (some [100]) [] [] false false).camRecording = true ∧
    (tick sinkFailState 1 (some [100]) [] [] false false).videoWriter =
      some ⟨false, []⟩ := by
  norm_num [tick, tickMotion, tickVoice, detectMotion, detectMotionSimple,
    movementPercentage, fdThreshold, sinkFailState, initState,
    camStartRecording, audStartRecording, camRecordFrame, audRecordAudio,
    camStopRecording, audStopRecording]

/-- C8 (amended): session creation performs no sink-validity check:
`start_recording` sets the recording flag and installs the freshly created
writer unconditionally, whether or not the writer managed to open its
output file; a failed sink therefore leaves the controller recording into a
half-open writer (whose writes are silently dropped) rather than reverting
to Idle. -/
theorem start_recording_ignores_sink_failure (s : AppState) (writerOk : Bool) :
    (camStartRecording s writerOk).camRecording = true ∧
    (camStartRecording s writerOk).videoWriter = some ⟨writerOk, []⟩ := by
  simp [camStartRecording]

set_option maxRecDepth 10000

/-- C3: in FastDifference mode, the very first classified frame reports no
motion for every content and stores the frame as the reference; every
subsequent frame reports motion exactly when the percentage of pixels whose
absolute difference from the stored reference exceeds the cut-off 25 is
strictly greater than (30 − sensitivity)/5, and the reference is updated to
0.7·old + 0.3·new.  At sensitivity 20 (threshold 2 %), a frame pair with
2.5 % changed pixels reports motion and one with 1.5 % does not. -/
theorem fastdiff_motion_rule :
    (∀ (sensitivity : ℚ) (gray : Gray),
        detectMotionSimple sensitivity none gray = (false, some gray)) ∧
    (∀ (sensitivity : ℚ) (p gray : Gray), p.length = gray.length →
        ((detectMotionSimple sensitivity (some p) gray).1 = true ↔
          (((List.zipWith (fun a b => |a - b|) p gray).filter
              (fun d => 25 < d)).length : ℚ) / (p.length : ℚ) * 100 >
            (30 - sensitivity) / 5) ∧
        (detectMotionSimple sensitivity (some p) gray).2 =
          some (List.zipWith (fun a b => 0.7 * a + 0.3 * b) p gray)) ∧
    (detectMotionSimple 20 (some demoPrev) demoFrame25).1 = true ∧
    (detectMotionSimple 20 (some demoPrev) demoFrame15).1 = false := by
  refine ⟨fun sensitivity gray => rfl, fun sensitivity p gray hlen => ⟨?_, ?_⟩,
    ?_, ?_⟩
  · simp only [detectMotionSimple, decide_eq_true_eq, movementPercentage,
      fdThreshold, length_filter_threshOfDelta, List.length_map,
      List.length_zipWith, hlen, min_self]
  · simp [detectMotionSimple]
  · norm_num [detectMotionSimple, movementPercentage, fdThreshold, demoPrev,
      demoFrame25, List.replicate]
  · norm_num [detectMotionSimple, movementPercentage, fdThreshold, demoPrev,
      demoFrame15, List.replicate]

theorem fastdiff_motion_rule_witness :
    (detectMotionSimple 20 (some demoPrev) demoFrame25).2 =
      some (List.zipWith (fun a b => 0.7 * a + 0.3 * b) demoPrev demoFrame25) :=
  (fastdiff_motion_rule.2.1 20 demoPrev demoFrame25 (by decide)).2

/-- C4: with voice detection enabled and the stream open, an even-length
chunk reports voice exactly when the mean of the absolute values of its
little-endian signed 16-bit samples is strictly greater than 1500; a chunk
of mean magnitude 1600 reports voice, one of mean 1400 does not, and the
boundary mean 1500 falls on the no-voice side. -/
theorem voice_energy_rule :
    (∀ data : List Nat, data.length % 2 = 0 →
        (detectVoice true true data = true ↔
          (((decodeSamples data).map Int.natAbs).sum : ℚ) /
              ((decodeSamples data).length : ℚ) > 1500)) ∧
    detectVoice true true chunk1600 = true ∧
    detectVoice true true chunk1400 = false ∧
    detectVoice true true chunk1500 = false := by
  refine ⟨fun data hlen => ?_, ?_, ?_, ?_⟩
  · have h2 : ((data.length : ℚ)) / 2 = ((decodeSamples data).length : ℚ) := by
      rw [decodeSamples_length]
      obtain ⟨k, hk⟩ : ∃ k, data.length = 2 * k := ⟨data.length / 2, by omega⟩
      rw [hk, Nat.mul_div_cancel_left k (by norm_num)]
      push_cast
      ring
    simp only [detectVoice, chunkEnergy, h2, Bool.not_true, Bool.or_self,
      Bool.false_or, if_false, decide_eq_true_eq]
    simp
  · norm_num [detectVoice, chunkEnergy, decodeSamples, int16OfBytes, chunk1600]
  · norm_num [detectVoice, chunkEnergy, decodeSamples, int16OfBytes, chunk1400]
  · norm_num [detectVoice, chunkEnergy, decodeSamples, int16OfBytes, chunk1500]

theorem voice_energy_rule_witness :
    detectVoice true true chunk1600 = true ↔
      (((decodeSamples chunk1600).map Int.natAbs).sum : ℚ) /
          ((decodeSamples chunk1600).length : ℚ) > 1500 :=
  voice_energy_rule.1 chunk1600 (by decide)

theorem tickInv_init (useSimple : Bool) (sensitivity linger : ℚ)
    (voiceEnabled streamOk : Bool) :
    TickInv (initState useSimple sensitivity linger voiceEnabled streamOk) := by
  simp [TickInv, initState]

theorem tickInv_toggle (s : AppState) (h : TickInv s) :
    TickInv (toggleMonitoring s) := by
  obtain ⟨h1, h2, h3, h4⟩ := h
  unfold toggleMonitoring
  by_cases hm : s.monitoring = true <;>
    by_cases hr : s.camRecording = true <;>
      simp_all [TickInv, camStopRecording, audStopRecording]

theorem tickInv_tick (s : AppState) (now : ℚ) (frameOpt : Option Gray)
    (audioData recData : List Nat) (bgResult writerOk : Bool) (h : TickInv s) :
    TickInv (tick s now frameOpt audioData recData bgResult writerOk) := by
  obtain ⟨h1, h2, h3, h4⟩ := h
  by_cases hc : s.cameraOpen = true
  case neg =>
    rw [Bool.not_eq_true] at hc
    simpa [tick, hc] using ⟨h1, h2, h3, h4⟩
  cases frameOpt with
  | none => simpa [tick, hc] using ⟨h1, h2, h3, h4⟩
  | some frame =>
      by_cases hmon : s.monitoring = true
      case neg =>
        rw [Bool.not_eq_true] at hmon
        simpa [tick, hc, hmon] using ⟨h1, h2, h3, h4⟩
      by_cases hr : s.camRecording = true
      · obtain ⟨w, hw⟩ : ∃ w, s.videoWriter = some w := by
          rw [← Option.isSome_iff_exists, h1, hr]
        by_cases hm : tickMotion s bgResult frame = true
        · simp [tick, TickInv, hc, hmon, hr, hm, h2, h3, h4, hw,
            camStartRecording, audStartRecording, camRecordFrame, audRecordAudio]
        · rw [Bool.not_eq_true] at hm
          by_cases hv : tickVoice s now audioData = true
          · simp [tick, TickInv, hc, hmon, hr, hm, hv, h2, h3, h4, hw,
              camStartRecording, audStartRecording, camRecordFrame,
              audRecordAudio]
          · rw [Bool.not_eq_true] at hv
            by_cases hl : now - max s.lastMotionTime s.lastVoiceTime < s.linger
            · simp [tick, TickInv, hc, hmon, hr, hm, hv, hl, h2, h3, h4, hw,
                camRecordFrame, audRecordAudio]
            · simp [tick, TickInv, hc, hmon, hr, hm, hv, hl, h2, h3, h4,
                camStopRecording, audStopRecording]
      · rw [Bool.not_eq_true] at hr
        by_cases hm : tickMotion s bgResult frame = true
        · simp [tick, TickInv, hc, hmon, hr, hm, h2, h3, h4,
            camStartRecording, audStartRecording, camRecordFrame, audRecordAudio]
        · rw [Bool.not_eq_true] at hm
          by_cases hv : tickVoice s now audioData = true
          · simp [tick, TickInv, hc, hmon, hr, hm, hv, h2, h3, h4,
              camStartRecording, audStartRecording, camRecordFrame,
              audRecordAudio]
          · rw [Bool.not_eq_true] at hv
            simp [tick, TickInv, hc, hmon, hr, hm, hv, h1, h2, h3, h4]

theorem reachable_tickInv (s : AppState) (h : Reachable s) : TickInv s := by
  induction h with
  | init u se l v st => exact tickInv_init u se l v st
  | tick s now f a r bg wo _ ih => exact tickInv_tick s now f a r bg wo ih
  | toggle s _ ih => exact tickInv_toggle s ih

/-- C1: at every state reachable by the controller's tick loop, a recording
session — an open video writer together with the accumulating audio
recording — exists if and only if the controller is recording, and at most
one open video writer exists at any time. -/
theorem session_iff_recording (s : AppState) (h : Reachable s) :
    (s.videoWriter.isSome = true ↔ s.camRecording = true) ∧
    (s.audRecording = true ↔ s.camRecording = true) ∧
    (∀ w1 w2 : VideoWriter, s.videoWriter = some w1 →
      s.videoWriter = some w2 → w1 = w2) := by
  obtain ⟨h1, h2, h3, h4⟩ := reachable_tickInv s h
  exact ⟨by rw [h1], by rw [h2],
    fun w1 w2 e1 e2 => by rw [e1] at e2; injection e2⟩

theorem session_iff_recording_witness :
    ((initState true 20 10 true true).videoWriter.isSome = true ↔
      (initState true 20 10 true true).camRecording = true) ∧
    ((initState true 20 10 true true).audRecording = true ↔
      (initState true 20 10 true true).camRecording = true) ∧
    (∀ w1 w2 : VideoWriter,
      (initState true 20 10 true true).videoWriter = some w1 →
      (initState true 20 10 true true).videoWriter = some w2 → w1 = w2) :=
  session_iff_recording (initState true 20 10 true true)
    (Reachable.init true 20 10 true true)

theorem camStopRecording_times (s : AppState) :
    (camStopRecording s).lastMotionTime = s.lastMotionTime ∧
    (camStopRecording s).lastVoiceTime = s.lastVoiceTime := by
  unfold camStopRecording
  split <;> exact ⟨rfl, rfl⟩

theorem audStopRecording_times (s : AppState) :
    (audStopRecording s).lastMotionTime = s.lastMotionTime ∧
    (audStopRecording s).lastVoiceTime = s.lastVoiceTime := by
  unfold audStopRecording
  split <;> exact ⟨rfl, rfl⟩

theorem tick_timestamps_cases (s : AppState) (now : ℚ) (frameOpt : Option Gray)
    (audioData recData : List Nat) (bgResult writerOk : Bool) :
    ((tick s now frameOpt audioData recData bgResult writerOk).lastMotionTime
        = s.lastMotionTime ∨
      (∃ frame, frameOpt = some frame ∧ tickMotion s bgResult frame = true ∧
        (tick s now frameOpt audioData recData bgResult writerOk).lastMotionTime
          = now)) ∧
    ((tick s now frameOpt audioData recData bgResult writerOk).lastVoiceTime
        = s.lastVoiceTime ∨
      (tickVoice s now audioData = true ∧
        (tick s now frameOpt audioData recData bgResult writerOk).lastVoiceTime
          = now)) := by
  by_cases hc : s.cameraOpen = true
  case neg =>
    rw [Bool.not_eq_true] at hc
    simp [tick, hc]
  cases frameOpt with
  | none => simp [tick, hc]
  | some frame =>
      by_cases hmon : s.monitoring = true
      case neg =>
        rw [Bool.not_eq_true] at hmon
        simp [tick, hc, hmon]
      rcases Bool.eq_false_or_eq_true s.camRecording with hr | hr <;>
        rcases Bool.eq_false_or_eq_true (tickMotion s bgResult frame) with
          hm | hm <;>
        rcases Bool.eq_false_or_eq_true (tickVoice s now audioData) with
          hv | hv <;>
        by_cases hl : now - max s.lastMotionTime s.lastVoiceTime < s.linger <;>
        simp [tick, hc, hmon, hm, hv, hr, hl, camRecordFrame, audRecordAudio,
          camStartRecording, audStartRecording, camStopRecording_times,
          audStopRecording_times, apply_ite AppState.lastMotionTime,
          apply_ite AppState.lastVoiceTime]

/-- C5: provided the wall clock does not run backwards, `lastMotionAt` and
`lastVoiceAt` are monotonically non-decreasing across any tick, and each is
written only on a tick where its respective detector reports true, in which
case it is set to the current time. -/
theorem timestamps_monotone (s : AppState) (now : ℚ) (frameOpt : Option Gray)
    (audioData recData : List Nat) (bgResult writerOk : Bool)
    (hmt : s.lastMotionTime ≤ now) (hvt : s.lastVoiceTime ≤ now) :
    (s.lastMotionTime ≤
        (tick s now frameOpt audioData recData bgResult writerOk).lastMotionTime ∧
      s.lastVoiceTime ≤
        (tick s now frameOpt audioData recData bgResult writerOk).lastVoiceTime) ∧
    ((tick s now frameOpt audioData recData bgResult writerOk).lastMotionTime ≠
        s.lastMotionTime →
      ∃ frame, frameOpt = some frame ∧ tickMotion s bgResult frame = true ∧
        (tick s now frameOpt audioData recData bgResult writerOk).lastMotionTime
          = now) ∧
    ((tick s now frameOpt audioData recData bgResult writerOk).lastVoiceTime ≠
        s.lastVoiceTime →
      tickVoice s now audioData = true ∧
        (tick s now frameOpt audioData recData bgResult writerOk).lastVoiceTime
          = now) := by
  obtain ⟨hM, hV⟩ :=
    tick_timestamps_cases s now frameOpt audioData recData bgResult writerOk
  refine ⟨⟨?_, ?_⟩, fun hne => ?_, fun hne => ?_⟩
  · rcases hM with h | ⟨f, _, _, h⟩ <;> rw [h]
    exact hmt
  · rcases hV with h | ⟨_, h⟩ <;> rw [h]
    exact hvt
  · rcases hM with h | hgood
    · exact absurd h hne
    · exact hgood
  · rcases hV with h | hgood
    · exact absurd h hne
    · exact hgood

theorem timestamps_monotone_witness :
    ((initState true 20 10 true true).lastMotionTime ≤
        (tick (initState true 20 10 true true) 3 none [] [] false
          false).lastMotionTime ∧
      (initState true 20 10 true true).lastVoiceTime ≤
        (tick (initState true 20 10 true true) 3 none [] [] false
          false).lastVoiceTime) ∧
    ((tick (initState true 20 10 true true) 3 none [] [] false
          false).lastMotionTime ≠ (initState true 20 10 true true).lastMotionTime →
      ∃ frame, (none : Option Gray) = some frame ∧
        tickMotion (initState true 20 10 true true) false frame = true ∧
        (tick (initState true 20 10 true true) 3 none [] [] false
          false).lastMotionTime = 3) ∧
    ((tick (initState true 20 10 true true) 3 none [] [] false
          false).lastVoiceTime ≠ (initState true 20 10 true true).lastVoiceTime →
      tickVoice (initState true 20 10 true true) 3 [] = true ∧
        (tick (initState true 20 10 true true) 3 none [] [] false
          false).lastVoiceTime = 3) :=
  timestamps_monotone (initState true 20 10 true true) 3 none [] [] false false
    (by norm_num [initState]) (by norm_num [initState])

theorem recState_reachable : Reachable recState := by
  unfold recState
  exact Reachable.tick _ 2 (some [100]) [] [] false true
    (Reachable.tick _ 1 (some [0]) [] [] false true
      (Reachable.toggle _ (Reachable.init true 20 10 false true)))

/-- C2: on every reachable tick taken while recording (camera present,
monitoring on, frame acquired) the controller keeps recording — appending
the frame to the opened writer and the chunk to the session's audio
buffer — exactly when the motion or voice detector fires this tick or
`now − max(lastMotionAt, lastVoiceAt)` is strictly below the linger time;
otherwise it stops: the writer is closed into a finalized video file and
the audio buffer is finalized into a wave file.  With linger 10 and a
single event at `t = 0`, the session is still open after the tick at
`t = 9.9` s and absent after the tick at `t = 10.1` s. -/
theorem recording_continuation_rule :
    (∀ (s : AppState) (now : ℚ) (frame : Gray) (audioData recData : List Nat)
        (bgResult writerOk : Bool), Reachable s → s.camRecording = true →
        s.cameraOpen = true → s.monitoring = true →
        ((tick s now (some frame) audioData recData bgResult
            writerOk).camRecording = true ↔
          (tickMotion s bgResult frame = true ∨ tickVoice s now audioData = true ∨
            now - max s.lastMotionTime s.lastVoiceTime < s.linger)) ∧
        ((tickMotion s bgResult frame = true ∨ tickVoice s now audioData = true ∨
            now - max s.lastMotionTime s.lastVoiceTime < s.linger) →
          ∀ w : VideoWriter, s.videoWriter = some w → w.opened = true →
            s.streamOpen = true →
            (tick s now (some frame) audioData recData bgResult
                writerOk).videoWriter = some ⟨true, w.frames ++ [frame]⟩ ∧
            (tick s now (some frame) audioData recData bgResult
                writerOk).audioFrames = s.audioFrames ++ [recData]) ∧
        (¬(tickMotion s bgResult frame = true ∨ tickVoice s now audioData = true ∨
            now - max s.lastMotionTime s.lastVoiceTime < s.linger) →
          (tick s now (some frame) audioData recData bgResult
              writerOk).camRecording = false ∧
          (tick s now (some frame) audioData recData bgResult
              writerOk).videoWriter = none ∧
          (tick s now (some frame) audioData recData bgResult
              writerOk).videoFiles = s.videoFiles + 1 ∧
          (tick s now (some frame) audioData recData bgResult
              writerOk).audRecording = false ∧
          (tick s now (some frame) audioData recData bgResult
              writerOk).wavFiles = s.wavFiles ++ [s.audioFrames] ∧
          (tick s now (some frame) audioData recData bgResult
              writerOk).audioFrames = [])) ∧
    (tick lingerScenarioState (99/10) (some [0]) [] [] false true).camRecording
        = true ∧
    (tick (tick lingerScenarioState (99/10) (some [0]) [] [] false true)
        (101/10) (some [0]) [] [] false true).camRecording = false ∧
    (tick (tick lingerScenarioState (99/10) (some [0]) [] [] false true)
        (101/10) (some [0]) [] [] false true).videoWriter = none := by
  refine ⟨fun s now frame audioData recData bgResult writerOk hreach hr hc
      hmon => ?_, ?_, ?_, ?_⟩
  · obtain ⟨h1, h2, h3, h4⟩ := reachable_tickInv s hreach
    have ha : s.audRecording = true := h2.trans hr
    refine ⟨?_, fun hcond w hww hop hstr => ?_, fun hncond => ?_⟩
    · rcases Bool.eq_false_or_eq_true (tickMotion s bgResult frame) with
        hm | hm <;>
        rcases Bool.eq_false_or_eq_true (tickVoice s now audioData) with
          hv | hv <;>
        by_cases hl : now - max s.lastMotionTime s.lastVoiceTime < s.linger <;>
        simp [tick, hc, hmon, hr, hm, hv, hl, h3, h4, ha, camRecordFrame,
          audRecordAudio, camStopRecording, audStopRecording]
    · rcases Bool.eq_false_or_eq_true (tickMotion s bgResult frame) with
        hm | hm <;>
        rcases Bool.eq_false_or_eq_true (tickVoice s now audioData) with
          hv | hv <;>
        by_cases hl : now - max s.lastMotionTime s.lastVoiceTime < s.linger <;>
        first
          | (simp [tick, hc, hmon, hr, hm, hv, hl, h3, h4, ha, hww, hop, hstr,
              camRecordFrame, audRecordAudio]; done)
          | exact absurd hcond (by simp [hm, hv, hl])
    · rcases Bool.eq_false_or_eq_true (tickMotion s bgResult frame) with
        hm | hm <;>
        rcases Bool.eq_false_or_eq_true (tickVoice s now audioData) with
          hv | hv <;>
        by_cases hl : now - max s.lastMotionTime s.lastVoiceTime < s.linger <;>
        first
          | exact absurd (Or.inl hm) hncond
          | exact absurd (Or.inr (Or.inl hv)) hncond
          | exact absurd (Or.inr (Or.inr hl)) hncond
          | simp [tick, hc, hmon, hr, hm, hv, hl, h3, h4, ha,
              camStopRecording, audStopRecording]
  · norm_num [tick, tickMotion, tickVoice, detectMotion, detectMotionSimple,
      movementPercentage, fdThreshold, detectVoice, chunkEnergy, decodeSamples,
      lingerScenarioState, initState, camStartRecording, audStartRecording,
      camRecordFrame, audRecordAudio, camStopRecording, audStopRecording]
  · norm_num [tick, tickMotion, tickVoice, detectMotion, detectMotionSimple,
      movementPercentage, fdThreshold, detectVoice, chunkEnergy, decodeSamples,
      lingerScenarioState, initState, camStartRecording, audStartRecording,
      camRecordFrame, audRecordAudio, camStopRecording, audStopRecording]
  · norm_num [tick, tickMotion, tickVoice, detectMotion, detectMotionSimple,
      movementPercentage, fdThreshold, detectVoice, chunkEnergy, decodeSamples,
      lingerScenarioState, initState, camStartRecording, audStartRecording,
      camRecordFrame, audRecordAudio, camStopRecording, audStopRecording]

theorem recording_continuation_rule_witness :
    (tick recState 3 (some [100]) [] [] false true).camRecording = true :=
  ((recording_continuation_rule.1 recState 3 [100] [] [] false true
      recState_reachable
      (by norm_num [recState, tick, tickMotion, tickVoice, detectMotion,
        detectMotionSimple, movementPercentage, fdThreshold, detectVoice,
        chunkEnergy, decodeSamples, toggleMonitoring, initState,
        camStartRecording, audStartRecording, camRecordFrame, audRecordAudio,
        camStopRecording, audStopRecording])
      (by norm_num [recState, tick, tickMotion, tickVoice, detectMotion,
        detectMotionSimple, movementPercentage, fdThreshold, detectVoice,
        chunkEnergy, decodeSamples, toggleMonitoring, initState,
        camStartRecording, audStartRecording, camRecordFrame, audRecordAudio,
        camStopRecording, audStopRecording])
      (by norm_num [recState, tick, tickMotion, tickVoice, detectMotion,
        detectMotionSimple, movementPercentage, fdThreshold, detectVoice,
        chunkEnergy, decodeSamples, toggleMonitoring, initState,
        camStartRecording, audStartRecording, camRecordFrame, audRecordAudio,
        camStopRecording, audStopRecording])).1.mpr
    (Or.inr (Or.inr (by norm_num [recState, tick, tickMotion, tickVoice,
      detectMotion, detectMotionSimple, movementPercentage, fdThreshold,
      detectVoice, chunkEnergy, decodeSamples, toggleMonitoring, initState,
      camStartRecording, audStartRecording, camRecordFrame, audRecordAudio,
      camStopRecording, audStopRecording]))))
